import Mathlib

/-!
Verification of the geospatial aggregation core of the
"Predicting Neighborhood Affluence with Yelp Ratings" pipeline
(notebook `GPS Data Generation`).

The embedding is a direct translation of the notebook's cells:

* `BusinessRecord` models a row of the cleaned `yelp` dataframe
  (neighborhood `cra`, price tier, split latitude/longitude columns).
* `SeattleRow` models a row of `seattle_rent` after the `{i} dollar`
  columns have been added (the four dollar columns are a function
  `Int → Rat`, mirroring the `f"{i} dollar"` column family).
* `GpsPoint` models a row of `gps_df` (latitude, longitude, neighborhood).
* The geodesic distance of `geopy` (`d.distance(...).miles`) is an external
  library; it enters the embedding as an explicit function parameter
  `dist : Rat × Rat → Rat × Rat → Rat`, so that every theorem holds for the
  library's actual distance function.
* Python's real-valued division is embedded as exact division on `Rat`.
-/

structure BusinessRecord where
  cra : String
  price : Int
  latitude : Rat
  longitude : Rat
  deriving Repr, DecidableEq

structure GpsPoint where
  latitude : Rat
  longitude : Rat
  neighborhood : String
  deriving Repr, DecidableEq

structure SeattleRow where
  neighborhood : String
  median_rent : Rat
  median_home_value : Rat
  median_income : Rat
  dollar : Int → Rat

/-- The distance filter inside `radius_dollar_proportion` (the `indices`
loop): the records of `df` whose geodesic distance from `location` is at most
`radius` (`d.distance(location, coordinates).miles <= radius`). -/
def distance_filter (dist : Rat × Rat → Rat × Rat → Rat)
    (location : Rat × Rat) (radius : Rat) (df : List BusinessRecord) :
    List BusinessRecord :=
  df.filter (fun b => decide (dist location (b.latitude, b.longitude) ≤ radius))

/-- The tier-proportion computation shared by `radius_dollar_proportion`
(its tail after the distance filter) and `dollar_rating` (its middle):
`0` when the record list is empty, else
`count(records with price == tier) / count(records)`. -/
def tier_proportion (records : List BusinessRecord) (tier : Int) : Rat :=
  if records.length = 0 then 0
  else ((records.filter (fun b => decide (b.price = tier))).length : Rat) /
    (records.length : Rat)

/-- Embedding of `radius_dollar_proportion(location, df, radius, dollar_tier)`:
collect the records of `df` whose geodesic distance from `location` is at most
`radius`; return `0` if none, else the fraction of them priced `dollar_tier`. -/
def radius_dollar_proportion (dist : Rat × Rat → Rat × Rat → Rat)
    (location : Rat × Rat) (df : List BusinessRecord) (radius : Rat)
    (dollar_tier : Int) : Rat :=
  let surrounding := df.filter
    (fun b => decide (dist location (b.latitude, b.longitude) ≤ radius))
  if surrounding.length = 0 then 0
  else ((surrounding.filter (fun b => decide (b.price = dollar_tier))).length : Rat) /
    (surrounding.length : Rat)

/-- The proportion computed inside `dollar_rating(seattle_df, yelp_df,
neighborhood, dollar_tier)`: `0` when no yelp row has `cra == neighborhood`,
else the fraction of those rows priced `dollar_tier`. -/
def dollar_rating_proportion (yelp_df : List BusinessRecord)
    (neighborhood : String) (dollar_tier : Int) : Rat :=
  let yelp_hood := yelp_df.filter (fun b => decide (b.cra = neighborhood))
  if yelp_hood.length = 0 then 0
  else ((yelp_hood.filter (fun b => decide (b.price = dollar_tier))).length : Rat) /
    (yelp_hood.length : Rat)

/-- One row's share of `dollar_rating`'s in-place write
`seattle_df.loc[hood_index, [f"{dollar_tier} dollar"]] = proportion`: a row in
`hood_index` (neighborhood matches) gets its `dollar_tier` dollar column set
to `proportion`; any other row is untouched. -/
def dollar_rating_row (proportion : Rat) (neighborhood : String)
    (dollar_tier : Int) (row : SeattleRow) : SeattleRow :=
  if row.neighborhood = neighborhood then
    { row with dollar := Function.update row.dollar dollar_tier proportion }
  else row

/-- Embedding of `dollar_rating`: compute the neighborhood's proportion and
apply the write row-wise; the post-state of both dataframes is returned
(`yelp_df` is only read by the source). -/
def dollar_rating (seattle_df : List SeattleRow) (yelp_df : List BusinessRecord)
    (neighborhood : String) (dollar_tier : Int) :
    List SeattleRow × List BusinessRecord :=
  (seattle_df.map
    (dollar_rating_row (dollar_rating_proportion yelp_df neighborhood dollar_tier)
      neighborhood dollar_tier),
   yelp_df)

/-- Embedding of the GPS generation loop (`for i in range(1300): ...`), with
the loop bound as a parameter. `randLat i` / `randLon i` stand for the `i`-th
rounded draws `round(random.uniform(min, max), 6)` from the external random
source, and `locate lon lat` stands for `c.to_cra([long, lat])`. Python's
`range(count)` on a negative `count` is empty, which `Int.toNat` mirrors. -/
def gps_generate (count : Int) (randLat randLon : Nat → Rat)
    (locate : Rat → Rat → String) : List GpsPoint :=
  (List.range count.toNat).map (fun i =>
    { latitude := randLat i, longitude := randLon i,
      neighborhood := locate (randLon i) (randLat i) })

/-- Embedding of the body of the metric population loop
(`gps_df.loc[i, [f"{radius}mi {dollar} dollar"]] =
radius_dollar_proportion(location, yelp, radius, dollar)`): the feature stored
for point `p` at a given radius and tier is `radius_dollar_proportion` of the
point's coordinates against the full `yelp` record list. -/
def metric_value (dist : Rat × Rat → Rat × Rat → Rat)
    (yelp : List BusinessRecord) (p : GpsPoint) (radius : Rat)
    (dollar_tier : Int) : Rat :=
  radius_dollar_proportion dist (p.latitude, p.longitude) yelp radius dollar_tier

/-- Embedding of pandas `Series.item()`: succeeds exactly on a length-one
series, raising `ValueError` otherwise (in particular on an empty selection). -/
def series_item {α : Type} (xs : List α) : Except String α :=
  match xs with
  | [x] => Except.ok x
  | _ => Except.error "can only convert an array of size 1 to a Python scalar"

/-- Embedding of one iteration of the demographics population loop:
select the `seattle_rent` rows whose neighborhood equals the point's, then
extract median income, rent and home value with `.item()`. -/
def populate_demographics (seattle_rent : List SeattleRow) (p : GpsPoint) :
    Except String (Rat × Rat × Rat) := do
  let matching := seattle_rent.filter (fun r => decide (r.neighborhood = p.neighborhood))
  let income ← series_item (matching.map (fun r => r.median_income))
  let rent ← series_item (matching.map (fun r => r.median_rent))
  let home ← series_item (matching.map (fun r => r.median_home_value))
  pure (income, rent, home)

/-- Decomposition lemma: `radius_dollar_proportion` is `tier_proportion` of
the distance-filtered record list (the source inlines this composition). -/
theorem radius_dollar_proportion_eq (dist : Rat × Rat → Rat × Rat → Rat)
    (location : Rat × Rat) (df : List BusinessRecord) (radius : Rat)
    (dollar_tier : Int) :
    radius_dollar_proportion dist location df radius dollar_tier =
      tier_proportion (distance_filter dist location radius df) dollar_tier := rfl

/-- C1: when no business record lies within the radius of the center,
`radius_dollar_proportion` returns exactly `0`; likewise `dollar_rating`
computes proportion `0` for a neighborhood with zero business records, and
the cell it writes for such a neighborhood is `0`. -/
theorem empty_records_proportion_zero (dist : Rat × Rat → Rat × Rat → Rat)
    (location : Rat × Rat) (df : List BusinessRecord) (radius : Rat)
    (seattle_df : List SeattleRow) (yelp_df : List BusinessRecord)
    (neighborhood : String) (dollar_tier : Int) :
    (distance_filter dist location radius df = [] →
      radius_dollar_proportion dist location df radius dollar_tier = 0) ∧
    (yelp_df.filter (fun b => decide (b.cra = neighborhood)) = [] →
      dollar_rating_proportion yelp_df neighborhood dollar_tier = 0 ∧
      ∀ row ∈ (dollar_rating seattle_df yelp_df neighborhood dollar_tier).1,
        row.neighborhood = neighborhood → row.dollar dollar_tier = 0) := by
  have hprop : yelp_df.filter (fun b => decide (b.cra = neighborhood)) = [] →
      dollar_rating_proportion yelp_df neighborhood dollar_tier = 0 := by
    intro h
    unfold dollar_rating_proportion
    rw [h]
    rfl
  refine ⟨?_, fun h => ⟨hprop h, ?_⟩⟩
  · intro h
    rw [radius_dollar_proportion_eq, h]
    rfl
  · intro row hmem hrow
    unfold dollar_rating at hmem
    rw [List.mem_map] at hmem
    obtain ⟨row0, _, heq⟩ := hmem
    by_cases hcase : row0.neighborhood = neighborhood
    · rw [← heq]
      unfold dollar_rating_row
      simp only [hcase, if_pos]
      simp [Function.update_same, hprop h]
    · exfalso
      rw [← heq] at hrow
      unfold dollar_rating_row at hrow
      simp only [hcase, if_neg] at hrow
      exact hcase hrow

/-- C1 witness: instantiation at concrete empty selections. -/
theorem empty_records_proportion_zero_witness :
    distance_filter (fun _ _ => 1) (0, 0) (1/2) [] = [] ∧
    radius_dollar_proportion (fun _ _ => 1) (0, 0) [] (1/2) 2 = 0 ∧
    dollar_rating_proportion [] "Ballard" 2 = 0 := by
  have h := empty_records_proportion_zero (fun _ _ => 1) (0, 0) [] (1/2)
    [] [] "Ballard" 2
  exact ⟨rfl, h.1 rfl, (h.2 rfl).1⟩

/-- Auxiliary for C2: on a record list whose prices all lie in `{1,2,3,4}`,
the per-tier filter counts partition the length. -/
theorem tier_count_partition (R : List BusinessRecord)
    (h : ∀ b ∈ R, b.price = 1 ∨ b.price = 2 ∨ b.price = 3 ∨ b.price = 4) :
    (R.filter (fun b => decide (b.price = 1))).length +
      (R.filter (fun b => decide (b.price = 2))).length +
      (R.filter (fun b => decide (b.price = 3))).length +
      (R.filter (fun b => decide (b.price = 4))).length = R.length := by
  induction R with
  | nil => simp
  | cons b R ih =>
    have hb := h b (List.mem_cons_self _ _)
    have hR := ih (fun x hx => h x (List.mem_cons_of_mem _ hx))
    simp only [List.filter_cons, List.length_cons]
    rcases hb with hp | hp | hp | hp <;>
      simp only [hp] <;> norm_num <;> omega

/-- C2: over a record set whose price tiers all lie in `{1,2,3,4}`, the four
computed tier proportions sum to `1` when the set is non-empty, and to `0`
when it is empty. -/
theorem tier_proportion_sum (R : List BusinessRecord) :
    (R ≠ [] → (∀ b ∈ R, b.price = 1 ∨ b.price = 2 ∨ b.price = 3 ∨ b.price = 4) →
      tier_proportion R 1 + tier_proportion R 2 + tier_proportion R 3 +
        tier_proportion R 4 = 1) ∧
    (R = [] → tier_proportion R 1 + tier_proportion R 2 + tier_proportion R 3 +
      tier_proportion R 4 = 0) := by
  constructor
  · intro hne h
    have hlen : R.length ≠ 0 := by simpa using hne
    unfold tier_proportion
    rw [if_neg hlen, if_neg hlen, if_neg hlen, if_neg hlen]
    rw [div_add_div_same, div_add_div_same, div_add_div_same]
    rw [div_eq_one_iff_eq (by exact_mod_cast hlen)]
    exact_mod_cast tier_count_partition R h
  · intro he
    subst he
    simp [tier_proportion]

/-- C2 witness: a two-record set with tiers 1 and 2; the proportions sum
to `1`. -/
theorem tier_proportion_sum_witness :
    ([⟨"Ballard", 1, 0, 0⟩, ⟨"Ballard", 2, 0, 0⟩] : List BusinessRecord) ≠ [] ∧
    tier_proportion [⟨"Ballard", 1, 0, 0⟩, ⟨"Ballard", 2, 0, 0⟩] 1 +
      tier_proportion [⟨"Ballard", 1, 0, 0⟩, ⟨"Ballard", 2, 0, 0⟩] 2 +
      tier_proportion [⟨"Ballard", 1, 0, 0⟩, ⟨"Ballard", 2, 0, 0⟩] 3 +
      tier_proportion [⟨"Ballard", 1, 0, 0⟩, ⟨"Ballard", 2, 0, 0⟩] 4 = 1 :=
  ⟨by decide,
   (tier_proportion_sum [⟨"Ballard", 1, 0, 0⟩, ⟨"Ballard", 2, 0, 0⟩]).1
     (by decide) (by decide)⟩

/-- C3: on a non-empty record set the computed proportion is exactly
`count(records with price == tier) / count(records)`, and on every record set
the computed proportion lies in `[0, 1]`. -/
theorem tier_proportion_spec (records : List BusinessRecord) (tier : Int) :
    (records ≠ [] → tier_proportion records tier =
      ((records.filter (fun b => decide (b.price = tier))).length : Rat) /
        (records.length : Rat)) ∧
    0 ≤ tier_proportion records tier ∧ tier_proportion records tier ≤ 1 := by
  refine ⟨?_, ?_⟩
  · intro hne
    unfold tier_proportion
    rw [if_neg]
    simpa using hne
  · unfold tier_proportion
    by_cases h : records.length = 0
    · simp [h]
    · rw [if_neg h]
      refine ⟨by positivity, ?_⟩
      rw [div_le_one (by exact_mod_cast Nat.pos_of_ne_zero h)]
      exact_mod_cast List.length_filter_le _ _

/-- C3 witness: a concrete one-of-two proportion. -/
theorem tier_proportion_spec_witness :
    ([⟨"Ballard", 2, 0, 0⟩, ⟨"Ballard", 3, 0, 0⟩] : List BusinessRecord) ≠ [] ∧
    tier_proportion [⟨"Ballard", 2, 0, 0⟩, ⟨"Ballard", 3, 0, 0⟩] 2 =
      (([⟨"Ballard", 2, 0, 0⟩, ⟨"Ballard", 3, 0, 0⟩] : List BusinessRecord).filter
          (fun b => decide (b.price = 2))).length /
        (([⟨"Ballard", 2, 0, 0⟩, ⟨"Ballard", 3, 0, 0⟩] : List BusinessRecord).length : Rat) :=
  ⟨by decide,
   (tier_proportion_spec [⟨"Ballard", 2, 0, 0⟩, ⟨"Ballard", 3, 0, 0⟩] 2).1
     (by decide)⟩

/-- C4: the distance filter is monotone in the radius — for `r ≤ r2`, every
record selected within radius `r` of the center is also selected within
radius `r2`. -/
theorem distance_filter_mono (dist : Rat × Rat → Rat × Rat → Rat)
    (center : Rat × Rat) (records : List BusinessRecord) (r r2 : Rat)
    (h : r ≤ r2) :
    distance_filter dist center r records ⊆ distance_filter dist center r2 records := by
  intro b hb
  unfold distance_filter at hb ⊢
  rw [List.mem_filter] at hb ⊢
  refine ⟨hb.1, ?_⟩
  rw [decide_eq_true_eq] at hb ⊢
  exact le_trans hb.2 h

/-- C4 witness: at radius `1 ≤ 2` with a record at distance `2`, the inner
selection is contained in the outer one. -/
theorem distance_filter_mono_witness :
    (1 : Rat) ≤ 2 ∧
    distance_filter (fun _ _ => 2) (0, 0) 1 [⟨"Ballard", 2, 3, 4⟩] ⊆
      distance_filter (fun _ _ => 2) (0, 0) 2 [⟨"Ballard", 2, 3, 4⟩] :=
  ⟨by norm_num,
   distance_filter_mono (fun _ _ => 2) (0, 0) [⟨"Ballard", 2, 3, 4⟩] 1 2
     (by norm_num)⟩

/-- C5: a record is in the distance filter's selection iff it is one of the
input records and its geodesic distance from the center is at most the radius
(the boundary `distance == radius` is included). -/
theorem distance_filter_mem (dist : Rat × Rat → Rat × Rat → Rat)
    (center : Rat × Rat) (radius : Rat) (records : List BusinessRecord)
    (b : BusinessRecord) :
    b ∈ distance_filter dist center radius records ↔
      b ∈ records ∧ dist center (b.latitude, b.longitude) ≤ radius := by
  unfold distance_filter
  rw [List.mem_filter, decide_eq_true_eq]

/-- C6: each per-point feature written by the metric population loop is
`radius_dollar_proportion` of the point's coordinates against the full record
set; it depends only on the point's coordinates, never on its assigned
region. -/
theorem metric_value_full_records_region_independent
    (dist : Rat × Rat → Rat × Rat → Rat) (yelp : List BusinessRecord)
    (lat lon : Rat) (hood hood2 : String) (radius : Rat) (dollar_tier : Int) :
    metric_value dist yelp ⟨lat, lon, hood⟩ radius dollar_tier =
      radius_dollar_proportion dist (lat, lon) yelp radius dollar_tier ∧
    metric_value dist yelp ⟨lat, lon, hood⟩ radius dollar_tier =
      metric_value dist yelp ⟨lat, lon, hood2⟩ radius dollar_tier :=
  ⟨rfl, rfl⟩

/-- C9: the function `radius_dollar_proportion` is pure in its four arguments —
two calls on equal inputs (for the same external distance function) return
equal values. -/
theorem radius_dollar_proportion_deterministic
    (dist : Rat × Rat → Rat × Rat → Rat) (loc1 loc2 : Rat × Rat)
    (df1 df2 : List BusinessRecord) (r1 r2 : Rat) (t1 t2 : Int)
    (hloc : loc1 = loc2) (hdf : df1 = df2) (hr : r1 = r2) (ht : t1 = t2) :
    radius_dollar_proportion dist loc1 df1 r1 t1 =
      radius_dollar_proportion dist loc2 df2 r2 t2 := by
  subst hloc hdf hr ht
  rfl

/-- C9 witness: instantiation at a concrete repeated call. -/
theorem radius_dollar_proportion_deterministic_witness :
    radius_dollar_proportion (fun _ _ => 1) (0, 0) [⟨"Ballard", 2, 3, 4⟩] 2 2 =
      radius_dollar_proportion (fun _ _ => 1) (0, 0) [⟨"Ballard", 2, 3, 4⟩] 2 2 :=
  radius_dollar_proportion_deterministic (fun _ _ => 1) (0, 0) (0, 0)
    [⟨"Ballard", 2, 3, 4⟩] [⟨"Ballard", 2, 3, 4⟩] 2 2 2 2 rfl rfl rfl rfl

/-- C7: when no row of the demographics table matches the point's resolved
region, the demographics population step raises `.item()`'s `ValueError` and
produces no output tuple for that point (in particular it does not return a
zero-filled result). -/
theorem populate_demographics_missing_region_error
    (seattle_rent : List SeattleRow) (p : GpsPoint)
    (h : ∀ r ∈ seattle_rent, r.neighborhood ≠ p.neighborhood) :
    populate_demographics seattle_rent p =
      Except.error "can only convert an array of size 1 to a Python scalar" := by
  have hfilter :
      seattle_rent.filter (fun r => decide (r.neighborhood = p.neighborhood)) = [] := by
    rw [List.filter_eq_nil_iff]
    intro r hr
    simpa using h r hr
  unfold populate_demographics
  rw [hfilter]
  rfl

/-- A concrete demographics row (the Ballard row of the notebook's
`seattle_rent.head()` output), used to instantiate witnesses. -/
def ballard_row : SeattleRow :=
  ⟨"Ballard", 1542, 543200, 79162, fun _ => 0⟩

/-- C7 witness: a point in region "Magnolia" against a table holding only
the Ballard row yields the error, not a value. -/
theorem populate_demographics_missing_region_error_witness :
    (∀ r ∈ [ballard_row],
      r.neighborhood ≠ (⟨47, -122, "Magnolia"⟩ : GpsPoint).neighborhood) ∧
    populate_demographics [ballard_row] ⟨47, -122, "Magnolia"⟩ =
      Except.error "can only convert an array of size 1 to a Python scalar" :=
  ⟨by decide,
   populate_demographics_missing_region_error [ballard_row]
     ⟨47, -122, "Magnolia"⟩ (by decide)⟩

/-- C8 counterexample: at sample count `-5` the GPS generation loop completes
normally and returns the empty point sequence — no `InvalidArgument` (or any
other) failure occurs, contrary to the claim. -/
theorem gps_generate_negative_count_no_error :
    gps_generate (-5) (fun _ => 0) (fun _ => 0) (fun _ _ => "Ballard") = [] := rfl

/-- C8 (amended): for every negative sample count the GPS generation loop
silently produces the empty point sequence (Python's `range` over a negative
bound is empty); no error is raised. -/
theorem gps_generate_negative_count_empty (count : Int)
    (randLat randLon : Nat → Rat) (locate : Rat → Rat → String)
    (h : count < 0) :
    gps_generate count randLat randLon locate = [] := by
  have hz : count.toNat = 0 := by omega
  unfold gps_generate
  rw [hz]
  rfl

/-- C8 witness: instantiation at count `-3`. -/
theorem gps_generate_negative_count_empty_witness :
    (-3 : Int) < 0 ∧
    gps_generate (-3) (fun _ => 0) (fun _ => 0) (fun _ _ => "Ballard") = [] :=
  ⟨by norm_num,
   gps_generate_negative_count_empty (-3) (fun _ => 0) (fun _ => 0)
     (fun _ _ => "Ballard") (by norm_num)⟩

/-- C10: a call to `dollar_rating` leaves the yelp dataframe unchanged, keeps
the demographics table's length and row order, touches only the
`dollar_tier` dollar column of the rows whose neighborhood matches, and leaves
non-matching rows entirely unchanged. -/
theorem dollar_rating_frame (s : List SeattleRow) (y : List BusinessRecord)
    (n : String) (t : Int) :
    (dollar_rating s y n t).2 = y ∧
    (dollar_rating s y n t).1.length = s.length ∧
    ∀ i (hi : i < s.length) (hi2 : i < (dollar_rating s y n t).1.length),
      ((dollar_rating s y n t).1.get ⟨i, hi2⟩).neighborhood =
        (s.get ⟨i, hi⟩).neighborhood ∧
      ((dollar_rating s y n t).1.get ⟨i, hi2⟩).median_rent =
        (s.get ⟨i, hi⟩).median_rent ∧
      ((dollar_rating s y n t).1.get ⟨i, hi2⟩).median_home_value =
        (s.get ⟨i, hi⟩).median_home_value ∧
      ((dollar_rating s y n t).1.get ⟨i, hi2⟩).median_income =
        (s.get ⟨i, hi⟩).median_income ∧
      (∀ t2, t2 ≠ t → ((dollar_rating s y n t).1.get ⟨i, hi2⟩).dollar t2 =
        (s.get ⟨i, hi⟩).dollar t2) ∧
      ((s.get ⟨i, hi⟩).neighborhood ≠ n →
        (dollar_rating s y n t).1.get ⟨i, hi2⟩ = s.get ⟨i, hi⟩) := by
  refine ⟨rfl, by simp [dollar_rating], ?_⟩
  intro i hi hi2
  have hget : (dollar_rating s y n t).1.get ⟨i, hi2⟩ =
      dollar_rating_row (dollar_rating_proportion y n t) n t (s.get ⟨i, hi⟩) := by
    simp [dollar_rating, List.get_eq_getElem, List.getElem_map]
  rw [hget]
  unfold dollar_rating_row
  by_cases hcase : (s.get ⟨i, hi⟩).neighborhood = n
  · rw [if_pos hcase]
    refine ⟨rfl, rfl, rfl, rfl, ?_, ?_⟩
    · intro t2 ht2
      exact Function.update_noteq ht2 _ _
    · intro hne
      exact absurd hcase hne
  · rw [if_neg hcase]
    exact ⟨rfl, rfl, rfl, rfl, fun _ _ => rfl, fun _ => rfl⟩

/-- C10 witness: with a one-row table not matching the neighborhood, the call
changes nothing. -/
theorem dollar_rating_frame_witness :
    (dollar_rating [ballard_row] [] "Magnolia" 2).1.get ⟨0, by decide⟩ =
      [ballard_row].get ⟨0, by decide⟩ := by
  have h := (dollar_rating_frame [ballard_row] [] "Magnolia" 2).2.2 0
    (by decide) (by decide)
  exact h.2.2.2.2.2 (by decide)
